import Mathlib

/-!
# ANC Care Gap Predictor — verification of the specification against `app.py`

A shallow embedding of the logic of `src/app.py` (a Streamlit form that
encodes a patient profile into survey-coded features, scores it with a
trained classifier pipeline, and displays a risk tier plus a list of
contributing risk factors), together with theorems settling the frozen
claims about that program.

Scores are embedded as rationals (`ℚ`); the Python floats only carry the
comparison structure that the claims are about.  The trained scikit-learn
model and preprocessor are opaque external artifacts: they are embedded as
an abstract function from encoded feature records to scores.
-/

/-- Education selections offered by the form
(`st.sidebar.selectbox("Education Level", ...)`). -/
inductive Education
  | noFormal
  | primary
  | secondary
  | higher
deriving DecidableEq, Repr

/-- Marital-status selections offered by the form
(`st.sidebar.selectbox("Marital Status", ...)`). -/
inductive Marital
  | married
  | cohabiting
  | notInUnion
deriving DecidableEq, Repr

/-- A patient profile as assembled from the sidebar inputs of `app.py`:
age slider, parity number input, the Yes/No radios (embedded as `Bool`,
`true` = "Yes") and the two selectboxes. -/
structure Profile where
  age : ℕ
  parity : ℕ
  lateInitiator : Bool
  education : Education
  hasInsurance : Bool
  everGivenBirth : Bool
  maritalStatus : Marital
deriving DecidableEq, Repr

/-- `education_mapping` from `app.py`:
`{"No formal education": 0, "Primary": 1, "Secondary": 3, "Higher": 8}`. -/
def education_mapping : Education → ℕ
  | Education.noFormal => 0
  | Education.primary => 1
  | Education.secondary => 3
  | Education.higher => 8

/-- `marital_mapping` from `app.py`:
`{"Married": 1, "Living with partner": 2, "Not in union": 3}`. -/
def marital_mapping : Marital → ℕ
  | Marital.married => 1
  | Marital.cohabiting => 2
  | Marital.notInUnion => 3

/-- The record `predict_risk` builds as `input_df` (one row, seven
columns), after the button handler has already applied `education_mapping`
and `marital_mapping` while building `input_data`. -/
structure FeatureRecord where
  WB4 : ℕ
  CM11 : ℕ
  LateInitiator : ℕ
  WB6A : ℕ
  WB18 : ℕ
  CM1 : ℕ
  MA1 : ℕ
deriving DecidableEq, Repr

/-- The feature encoding performed by `app.py`: the button handler builds
`input_data` (applying the two mapping tables) and `predict_risk` maps it
to the model's column layout: `WB4` = age, `CM11` = parity,
`LateInitiator` = 1 iff "Yes", `WB6A` = mapped education code,
`WB18` = 1 if insured else 2, `CM1` = 1 if ever gave birth else 2,
`MA1` = mapped marital code. -/
def encodeFeatures (p : Profile) : FeatureRecord :=
  { WB4 := p.age
    CM11 := p.parity
    LateInitiator := if p.lateInitiator then 1 else 0
    WB6A := education_mapping p.education
    WB18 := if p.hasInsurance then 1 else 2
    CM1 := if p.everGivenBirth then 1 else 2
    MA1 := marital_mapping p.maritalStatus }

/-- The feature record described by the specification's Feature Encoder
contract, written from the spec's words: {maternalAge, parityCount,
lateInitiatorFlag(Yes=1/No=0), educationCode(None=0, Primary=1,
Secondary=3, Higher=8), insuranceCode(Yes=1/No=2), everBirthCode(Yes=1/No=2),
maritalCode(Married=1, Cohabiting=2, NotInUnion=3)}. -/
def specFeatureRecord (p : Profile) : FeatureRecord :=
  { WB4 := p.age
    CM11 := p.parity
    LateInitiator := if p.lateInitiator then 1 else 0
    WB6A :=
      match p.education with
      | Education.noFormal => 0
      | Education.primary => 1
      | Education.secondary => 3
      | Education.higher => 8
    WB18 := if p.hasInsurance then 1 else 2
    CM1 := if p.everGivenBirth then 1 else 2
    MA1 :=
      match p.maritalStatus with
      | Marital.married => 1
      | Marital.cohabiting => 2
      | Marital.notInUnion => 3 }

/-!
## Training-data preparation (`load_and_train_model` in `app.py`)
-/

/-- `create_late_initiator` in `app.py`, gestational-age part: unit 1
means weeks (value as-is), unit 2 means months (value × 4.345); any other
unit leaves the entry `NaN` (embedded as `none`). -/
def gestationalAgeWeeks (value : ℚ) (unit : ℤ) : Option ℚ :=
  if unit = 1 then some value
  else if unit = 2 then some (value * (4345/1000))
  else none

/-- `create_late_initiator` in `app.py`, feature part:
`LateInitiator = np.where(gestational_age_weeks > 13, 1, 0)`.  A `NaN`
gestational age compares false against 13 in numpy, so it yields 0. -/
def lateInitiatorOfRaw (value : ℚ) (unit : ℤ) : ℤ :=
  match gestationalAgeWeeks value unit with
  | some w => if w > 13 then 1 else 0
  | none => 0

/-- A training row as it stands just before the row filtering in
`load_and_train_model`: the `CareGapScore` label and the `LateInitiator`
column, each possibly missing (`NaN` ⇒ `none`).  The other feature
columns play no role in the filtering. -/
structure TrainRow where
  label : Option ℤ
  lateInit : Option ℤ
deriving DecidableEq, Repr

/-- The row filtering of `load_and_train_model`: first drop rows whose
target is missing (`valid_indices = ~y.isna()`), then drop rows whose
`LateInitiator` is missing (`valid_late_initiator`). -/
def prepareTrainRows (rows : List TrainRow) : List TrainRow :=
  (rows.filter (fun r => r.label.isSome)).filter (fun r => r.lateInit.isSome)

/-- Which of the survey columns used by `create_care_gap_score` exist in
the loaded data frame (`'MN6A' in df.columns`, etc.). -/
structure ColumnsPresent where
  mn6a : Bool
  mn6b : Bool
  mn6c : Bool
  mn9 : Bool
  mn8 : Bool
  ha14 : Bool
deriving DecidableEq, Repr

/-- One respondent's raw values for those survey columns. -/
structure SurveyRow where
  mn6a : ℤ
  mn6b : ℤ
  mn6c : ℤ
  mn9 : ℤ
  mn8 : ℤ
  ha14 : ℤ
deriving DecidableEq, Repr

/-- The per-row component indicators accumulated by
`create_care_gap_score`, in the order the Python appends them:
`bp_checked` (MN6A == 1), `urine_tested` (MN6B == 1), `blood_tested`
(MN6C == 1), then `tetanus_adequate` (MN9 >= 2) if MN9 exists, else
`tetanus_any` (MN8 == 1) if MN8 exists, then `hiv_tested` (HA14 == 1). -/
def componentValues (c : ColumnsPresent) (r : SurveyRow) : List ℤ :=
  (if c.mn6a then [if r.mn6a = 1 then 1 else 0] else [])
  ++ (if c.mn6b then [if r.mn6b = 1 then 1 else 0] else [])
  ++ (if c.mn6c then [if r.mn6c = 1 then 1 else 0] else [])
  ++ (if c.mn9 then [if r.mn9 ≥ 2 then 1 else 0]
      else if c.mn8 then [if r.mn8 = 1 then 1 else 0] else [])
  ++ (if c.ha14 then [if r.ha14 = 1 then 1 else 0] else [])

/-- The label computed by `create_care_gap_score`:
`CareGapScore = (received_components < (total_components - 1)).astype(int)`. -/
def careGapScore (c : ColumnsPresent) (r : SurveyRow) : ℤ :=
  if (componentValues c r).sum < ((componentValues c r).length : ℤ) - 1 then 1 else 0

/-- The tracked-component indicators as the claim words them: among
blood-pressure check, urine test, blood test, adequate tetanus coverage
and HIV test, exactly those whose column is present in the data.  (No
`tetanus_any` fallback: the claim's tetanus component is adequate
coverage, present iff MN9 is.) -/
def claimComponentValues (c : ColumnsPresent) (r : SurveyRow) : List ℤ :=
  (if c.mn6a then [if r.mn6a = 1 then 1 else 0] else [])
  ++ (if c.mn6b then [if r.mn6b = 1 then 1 else 0] else [])
  ++ (if c.mn6c then [if r.mn6c = 1 then 1 else 0] else [])
  ++ (if c.mn9 then [if r.mn9 ≥ 2 then 1 else 0] else [])
  ++ (if c.ha14 then [if r.ha14 = 1 then 1 else 0] else [])

/-- The care-gap label exactly as the claim describes it: 1 when the
count of received tracked components is strictly below the number of
tracked components minus 1, else 0. -/
def claimCareGapScore (c : ColumnsPresent) (r : SurveyRow) : ℤ :=
  if (claimComponentValues c r).sum < ((claimComponentValues c r).length : ℤ) - 1 then 1 else 0

/-- The three risk tiers of the "Risk Interpretation" block. -/
inductive Tier
  | low
  | medium
  | high
deriving DecidableEq, Repr

/-- The risk-interpretation branch of `app.py`:
`if risk_score > 0.7: HIGH elif risk_score > 0.4: MEDIUM else: LOW`. -/
def riskTier (score : ℚ) : Tier :=
  if score > 7/10 then Tier.high
  else if score > 4/10 then Tier.medium
  else Tier.low

/-- The "Key Risk Factors" block of `app.py`, operating (as the Python
does) on the already-encoded `input_data` values: it appends a factor
string for late initiation, education code in {0, 1}, no insurance,
parity > 3 and marital code 3, in that order. -/
def riskFactors (p : Profile) : List String :=
  (if p.lateInitiator then ["Late ANC initiation (first visit after 13 weeks)"] else [])
  ++ (if education_mapping p.education = 0 ∨ education_mapping p.education = 1 then
        ["Lower education level"] else [])
  ++ (if p.hasInsurance = false then ["No health insurance"] else [])
  ++ (if p.parity > 3 then ["High parity (" ++ toString p.parity ++ " births)"] else [])
  ++ (if marital_mapping p.maritalStatus = 3 then ["Not in a union"] else [])

/-- A phrase is listed in a factor list when some displayed factor string
starts with it (the displayed strings may carry a parenthetical suffix,
e.g. "High parity (5 births)"). -/
def listedWithPhrase (phrase : String) (factors : List String) : Bool :=
  factors.any (fun f => phrase.data.isPrefixOf f.data)

/-- Where the scoring model came from at startup.  `app.py` has exactly
these two outcomes of its `try/except` block: either both joblib artifacts
load (`pretrained`), or the `except` branch runs `load_and_train_model()`
and uses the freshly trained pipeline (`freshlyTrained`). -/
inductive ModelSource
  | pretrained
  | freshlyTrained
deriving DecidableEq, Repr

/-- The `try: joblib.load ... except: load_and_train_model()` block of
`app.py`, as a function of whether the serialized artifacts are
loadable. -/
def startupModelSource (artifactsLoadable : Bool) : ModelSource :=
  if artifactsLoadable then ModelSource.pretrained else ModelSource.freshlyTrained

/-- Outcome of a scoring call: either a risk score, or a "model
unavailable" failure signal.  (The second constructor exists so the
spec's required failure path can be stated; `app.py` itself never
produces it.) -/
inductive ScoreResult
  | ok (score : ℚ)
  | unavailable
deriving DecidableEq, Repr

/-- `predict_risk` of `app.py`: build the feature record and apply the
loaded pipeline (preprocessor + classifier, embedded together as the
abstract function `m` from feature records to probabilities, indexed by
which model is in use).  Whatever `ModelSource` the startup block
produced, the call unconditionally returns a score. -/
def scoringCall (m : ModelSource → FeatureRecord → ℚ) (src : ModelSource)
    (p : Profile) : ScoreResult :=
  ScoreResult.ok (m src (encodeFeatures p))

/-- The whole in-memory state `app.py` holds between scoring calls: the
loaded (preprocessor + model) pipeline and where it came from.  Nothing
else is shared across requests. -/
structure AppState where
  model : ModelSource → FeatureRecord → ℚ
  source : ModelSource

/-- One full button-press handler of `app.py` as a state-passing
computation: it computes the risk score via `predict_risk` and the
displayed factor list, and returns the application state it ran in.  The
Python handler only reads `model`, `preprocessor` and the input widgets;
it assigns no global, so the resulting state is the incoming one. -/
def runScoringCall (s : AppState) (p : Profile) : (ℚ × List String) × AppState :=
  ((s.model s.source (encodeFeatures p), riskFactors p), s)

/-- The rendering loop under "Key Risk Factors" in `app.py`: each factor
is written as a bullet line, and when the list is empty the info message
"No significant risk factors identified" is shown instead. -/
def displayedFactorLines (factors : List String) : List String :=
  if factors.isEmpty then ["No significant risk factors identified"]
  else factors.map (fun f => "• " ++ f)

/-!
## Heuristic scorer (Strategy B), modelled from the spec

The repository's five hand-coded heuristic scorer revisions are not among
the files under `src/` (`src/app.py` is the trained-pipeline revision),
so the clamped weighted-sum scorer is modelled from the specification's
words.
-/

/-- Modelled from the spec: the constant table of one heuristic scorer
variant — the clamp bounds `lo ≤ hi` of its closed subinterval of
`[0,1]`, a base rate, one non-negative delta per risk factor and per
protective factor, and the parity threshold above which parity
contributes proportionally. -/
structure HeuristicConfig where
  lo : ℚ
  hi : ℚ
  base : ℚ
  dLate : ℚ
  dLowEducation : ℚ
  dNoInsurance : ℚ
  dHighParity : ℚ
  dNotInUnion : ℚ
  dExtremeAge : ℚ
  dHigherEducation : ℚ
  dInsured : ℚ
  dMarried : ℚ
  dMidAge : ℚ
  dFirstPregnancy : ℚ
  parityThreshold : ℕ
deriving DecidableEq, Repr

/-- Clamp a value into `[lo, hi]`. -/
def clampTo (lo hi x : ℚ) : ℚ := max lo (min x hi)

/-- Modelled from the spec: the unclamped weighted sum of Strategy B —
a fixed base rate plus a delta per present risk factor (late initiation,
low education, no insurance, parity above the threshold scaled by the
excess, not in union, extreme maternal age), minus a delta per present
protective factor (higher education, insurance, married, mid-range age,
first pregnancy). -/
def heuristicRaw (cfg : HeuristicConfig) (p : Profile) : ℚ :=
  cfg.base
  + (if p.lateInitiator then cfg.dLate else 0)
  + (if education_mapping p.education ≤ 1 then cfg.dLowEducation else 0)
  + (if p.hasInsurance then 0 else cfg.dNoInsurance)
  + (if cfg.parityThreshold < p.parity then
       cfg.dHighParity * ((p.parity : ℚ) - (cfg.parityThreshold : ℚ)) else 0)
  + (if p.maritalStatus = Marital.notInUnion then cfg.dNotInUnion else 0)
  + (if p.age < 18 ∨ 35 < p.age then cfg.dExtremeAge else 0)
  - (if p.education = Education.higher then cfg.dHigherEducation else 0)
  - (if p.hasInsurance then cfg.dInsured else 0)
  - (if p.maritalStatus = Marital.married then cfg.dMarried else 0)
  - (if 18 ≤ p.age ∧ p.age ≤ 35 then cfg.dMidAge else 0)
  - (if p.everGivenBirth then 0 else cfg.dFirstPregnancy)

/-- Modelled from the spec: a Strategy B variant's score is the weighted
sum clamped into the variant's subinterval `[lo, hi]`. -/
def heuristicScore (cfg : HeuristicConfig) (p : Profile) : ℚ :=
  clampTo cfg.lo cfg.hi (heuristicRaw cfg p)

/-- A representative "balanced" constant table (the spec treats the
per-variant constants as swappable configuration, with example bounds
`[0.05, 0.95]`). -/
def balancedConfig : HeuristicConfig :=
  { lo := 1/20, hi := 19/20, base := 3/10
    dLate := 1/4, dLowEducation := 3/20, dNoInsurance := 1/10
    dHighParity := 1/40, dNotInUnion := 1/10, dExtremeAge := 1/10
    dHigherEducation := 1/10, dInsured := 1/20, dMarried := 1/20
    dMidAge := 1/20, dFirstPregnancy := 1/20, parityThreshold := 3 }

/-!
## Claims
-/

/-- C1: the tier is High exactly when the score exceeds 0.7, Medium
exactly when it exceeds 0.4 but not 0.7, and Low exactly when it is at
most 0.4; both boundaries are strict (0.4 itself is Low, 0.7 itself is
Medium).  `riskTier` takes the score and nothing else, so no other
quantity influences the tier. -/
theorem c1_tier_thresholds (s : ℚ) :
    ((riskTier s = Tier.high ↔ 7/10 < s)
      ∧ (riskTier s = Tier.medium ↔ (4/10 < s ∧ s ≤ 7/10))
      ∧ (riskTier s = Tier.low ↔ s ≤ 4/10))
    ∧ riskTier (4/10) = Tier.low ∧ riskTier (7/10) = Tier.medium := by
  refine ⟨?_, by unfold riskTier; norm_num, by unfold riskTier; norm_num⟩
  unfold riskTier
  split_ifs with h1 h2
  · refine ⟨by simp [h1], ?_, ?_⟩
    · simp only [reduceCtorEq, false_iff]
      rintro ⟨-, h3⟩
      linarith
    · simp only [reduceCtorEq, false_iff, not_le]
      linarith
  · refine ⟨by simp; linarith, ?_, ?_⟩
    · simp only [true_iff]
      exact ⟨h2, le_of_not_lt h1⟩
    · simp only [reduceCtorEq, false_iff, not_le]
      linarith
  · refine ⟨by simp; linarith [le_of_not_lt h1], ?_, by simp [le_of_not_lt h2]⟩
    simp only [reduceCtorEq, false_iff]
    rintro ⟨h3, -⟩
    exact h2 h3

/-- C2, counterexample: when the artifacts are not loadable, the startup
block falls back to a freshly trained model and a scoring call still
returns a score — it does not produce the "model unavailable" signal the
claim requires.  (Concrete instance: a constant model 1/2 and one
concrete profile.) -/
theorem c2_counterexample :
    startupModelSource false = ModelSource.freshlyTrained
    ∧ scoringCall (fun _ _ => 1/2) (startupModelSource false)
        { age := 25, parity := 1, lateInitiator := false, education := Education.secondary,
          hasInsurance := true, everGivenBirth := true, maritalStatus := Marital.married }
        ≠ ScoreResult.unavailable := by
  exact ⟨rfl, by simp [scoringCall]⟩

/-- C2, amended: when the serialized artifacts cannot be loaded at
startup, the program never signals "model unavailable"; the except
branch trains a fresh pipeline, and every subsequent scoring call
returns that freshly trained model's score (no fixed default score is
substituted — the result is the model applied to the encoded
features). -/
theorem c2_fallback_training (m : ModelSource → FeatureRecord → ℚ) (p : Profile) :
    startupModelSource false = ModelSource.freshlyTrained
    ∧ scoringCall m (startupModelSource false) p
        = ScoreResult.ok (m ModelSource.freshlyTrained (encodeFeatures p)) :=
  ⟨rfl, rfl⟩

/-- C3: for every profile, the feature encoder of the trained-pipeline
variant produces exactly the record the specification describes (same
age and parity, Yes=1/No=0 late flag, education None=0/Primary=1/
Secondary=3/Higher=8, insurance Yes=1/No=2, ever-birth Yes=1/No=2,
marital Married=1/Cohabiting=2/NotInUnion=3). -/
theorem c3_feature_encoding (p : Profile) : encodeFeatures p = specFeatureRecord p := by
  obtain ⟨a, n, l, e, i, b, m⟩ := p
  cases e <;> cases m <;> rfl

/-- C4: in the training-data preparation, the gestational age in weeks
is the raw value under unit 1, the raw value × 4.345 under unit 2, and
missing under any other unit; the derived late-initiator feature equals
1 exactly when that gestational age exists and exceeds 13 weeks; and a
row survives the pre-fit filtering exactly when it is an input row whose
label and late-initiator entries are both present (so every row with
either missing is removed). -/
theorem c4_training_prep :
    (∀ v : ℚ, gestationalAgeWeeks v 1 = some v)
    ∧ (∀ v : ℚ, gestationalAgeWeeks v 2 = some (v * (4345/1000)))
    ∧ (∀ (v : ℚ) (u : ℤ), u ≠ 1 → u ≠ 2 → gestationalAgeWeeks v u = none)
    ∧ (∀ (v : ℚ) (u : ℤ),
        lateInitiatorOfRaw v u = 1 ↔ ∃ w, gestationalAgeWeeks v u = some w ∧ 13 < w)
    ∧ (∀ (rows : List TrainRow) (r : TrainRow),
        r ∈ prepareTrainRows rows ↔ r ∈ rows ∧ r.label.isSome ∧ r.lateInit.isSome) := by
  refine ⟨fun v => by simp [gestationalAgeWeeks], fun v => by norm_num [gestationalAgeWeeks],
    fun v u h1 h2 => by simp [gestationalAgeWeeks, h1, h2], fun v u => ?_, fun rows r => ?_⟩
  · unfold lateInitiatorOfRaw
    rcases h : gestationalAgeWeeks v u with - | w
    · simp
    · show (if w > 13 then (1:ℤ) else 0) = 1 ↔ ∃ w', (some w : Option ℚ) = some w' ∧ 13 < w'
      split_ifs with hw
      · simp [hw]
      · norm_num [hw]
  · simp only [prepareTrainRows, List.mem_filter]
    tauto

/-- C4 witness: the theorem applied at a concrete unit code 3 (neither
weeks nor months), discharging the two hypotheses. -/
theorem c4_witness : gestationalAgeWeeks 10 3 = none :=
  c4_training_prep.2.2.1 10 3 (by decide) (by decide)

/-- C5, counterexample: at age=17, parity=5, late=Yes, education=None,
insurance=No, marital=NotInUnion, the "Key Risk Factors" block of
`app.py` produces exactly five factor strings, and no displayed factor
is (or begins with) "Young maternal age" — the code never derives a
factor from age, so the claim's required entry is absent. -/
theorem c5_counterexample :
    riskFactors
        { age := 17, parity := 5, lateInitiator := true, education := Education.noFormal,
          hasInsurance := false, everGivenBirth := false, maritalStatus := Marital.notInUnion }
      = ["Late ANC initiation (first visit after 13 weeks)", "Lower education level",
         "No health insurance", "High parity (5 births)", "Not in a union"]
    ∧ listedWithPhrase "Young maternal age"
        (riskFactors
          { age := 17, parity := 5, lateInitiator := true, education := Education.noFormal,
            hasInsurance := false, everGivenBirth := false,
            maritalStatus := Marital.notInUnion }) = false := by
  decide

/-- C5, amended: at that input the displayed risk-factor list includes
"Late ANC initiation", "Lower education level", "No health insurance",
"High parity" and "Not in a union", but no "Young maternal age" factor;
the tier for this input is the trained model's score put through the
fixed thresholds, which the code alone does not determine. -/
theorem c5_high_risk_factors :
    riskFactors
        { age := 17, parity := 5, lateInitiator := true, education := Education.noFormal,
          hasInsurance := false, everGivenBirth := false, maritalStatus := Marital.notInUnion }
      = ["Late ANC initiation (first visit after 13 weeks)", "Lower education level",
         "No health insurance", "High parity (5 births)", "Not in a union"]
    ∧ (∀ phrase ∈ ["Late ANC initiation", "Lower education level", "No health insurance",
          "High parity", "Not in a union"],
        listedWithPhrase phrase
          (riskFactors
            { age := 17, parity := 5, lateInitiator := true, education := Education.noFormal,
              hasInsurance := false, everGivenBirth := false,
              maritalStatus := Marital.notInUnion }) = true)
    ∧ listedWithPhrase "Young maternal age"
        (riskFactors
          { age := 17, parity := 5, lateInitiator := true, education := Education.noFormal,
            hasInsurance := false, everGivenBirth := false,
            maritalStatus := Marital.notInUnion }) = false := by
  decide

/-- C6, counterexample: at age=28, parity=1, late=No, education=Higher,
insurance=Yes, everBirth=Yes, marital=Married, the factor list is empty:
none of the claimed protective factors ("Higher education", "Health
insurance coverage", "Married status", "Optimal age range") is
displayed, because the code defines no protective factors at all. -/
theorem c6_counterexample :
    riskFactors
        { age := 28, parity := 1, lateInitiator := false, education := Education.higher,
          hasInsurance := true, everGivenBirth := true, maritalStatus := Marital.married }
      = []
    ∧ (∀ phrase ∈ ["Higher education", "Health insurance coverage", "Married status",
          "Optimal age range"],
        listedWithPhrase phrase
          (riskFactors
            { age := 28, parity := 1, lateInitiator := false, education := Education.higher,
              hasInsurance := true, everGivenBirth := true,
              maritalStatus := Marital.married }) = false) := by
  decide

/-- C6, amended: at that input the program displays no factors — the
factor list is empty and the rendered block is the single info message
"No significant risk factors identified"; the tier for this input is
the trained model's score put through the fixed thresholds, which the
code alone does not determine. -/
theorem c6_low_risk_factors :
    displayedFactorLines
        (riskFactors
          { age := 28, parity := 1, lateInitiator := false, education := Education.higher,
            hasInsurance := true, everGivenBirth := true, maritalStatus := Marital.married })
      = ["No significant risk factors identified"] := by
  decide

/-- C7: a scoring call is deterministic and side-effect-free — it
returns the application state unchanged, and running the identical
profile again in the state left by the first call yields the identical
score and the identical ordered factor list. -/
theorem c7_deterministic_pure (s : AppState) (p : Profile) :
    (runScoringCall s p).2 = s
    ∧ (runScoringCall ((runScoringCall s p).2) p).1 = (runScoringCall s p).1 :=
  ⟨rfl, rfl⟩

/-- C8, counterexample: when the MN9 column is absent but MN8 is
present, `create_care_gap_score` counts a `tetanus_any` (MN8 = 1)
component that the claim's tracked-component list does not contain, and
the labels diverge: for a row with blood pressure, urine and blood all
received, no tetanus dose and no HIV test, the code labels 1 (3 < 5−1)
while the claim's formula labels 0 (3 < 4−1 is false). -/
theorem c8_counterexample :
    careGapScore
        { mn6a := true, mn6b := true, mn6c := true, mn9 := false, mn8 := true, ha14 := true }
        { mn6a := 1, mn6b := 1, mn6c := 1, mn9 := 0, mn8 := 0, ha14 := 0 } = 1
    ∧ claimCareGapScore
        { mn6a := true, mn6b := true, mn6c := true, mn9 := false, mn8 := true, ha14 := true }
        { mn6a := 1, mn6b := 1, mn6c := 1, mn9 := 0, mn8 := 0, ha14 := 0 } = 0 := by
  decide

/-- C8, amended: the label equals 1 exactly when the count of received
components is strictly less than the number of tracked components minus
1, where the tetanus component is adequate coverage (MN9 ≥ 2) when the
MN9 column is present, but falls back to any vaccination (MN8 = 1) when
only MN8 is present; in particular the claim's description is exact
whenever MN9 is present or MN8 is absent. -/
theorem c8_care_gap_label (c : ColumnsPresent) (r : SurveyRow)
    (h : c.mn9 = true ∨ c.mn8 = false) :
    careGapScore c r = claimCareGapScore c r := by
  obtain ⟨a, b, c', d, e, f⟩ := c
  have hcomp : componentValues ⟨a, b, c', d, e, f⟩ r
      = claimComponentValues ⟨a, b, c', d, e, f⟩ r := by
    rcases h with h | h <;> simp only at h <;> subst h <;>
      simp [componentValues, claimComponentValues]
  simp [careGapScore, claimCareGapScore, hcomp]

/-- C8 witness: the amended theorem applied at a configuration with MN9
present, discharging its hypothesis. -/
theorem c8_witness :
    careGapScore
        { mn6a := true, mn6b := true, mn6c := true, mn9 := true, mn8 := true, ha14 := true }
        { mn6a := 1, mn6b := 1, mn6c := 1, mn9 := 0, mn8 := 0, ha14 := 0 }
      = claimCareGapScore
        { mn6a := true, mn6b := true, mn6c := true, mn9 := true, mn8 := true, ha14 := true }
        { mn6a := 1, mn6b := 1, mn6c := 1, mn9 := 0, mn8 := 0, ha14 := 0 } :=
  c8_care_gap_label _ _ (Or.inl rfl)

/-- C9: a Strategy B variant's score always lies in the variant's
declared closed subinterval `[lo, hi]`, and whenever that subinterval
sits inside `[0,1]` (as every variant's does) the score lies in `[0,1]`
— it can never fall outside. -/
theorem c9_score_bounds (cfg : HeuristicConfig) (p : Profile)
    (h0 : 0 ≤ cfg.lo) (h1 : cfg.hi ≤ 1) (hlh : cfg.lo ≤ cfg.hi) :
    cfg.lo ≤ heuristicScore cfg p ∧ heuristicScore cfg p ≤ cfg.hi
    ∧ 0 ≤ heuristicScore cfg p ∧ heuristicScore cfg p ≤ 1 := by
  unfold heuristicScore clampTo
  have hup : max cfg.lo (min (heuristicRaw cfg p) cfg.hi) ≤ cfg.hi :=
    max_le hlh (min_le_right _ _)
  exact ⟨le_max_left _ _, hup, le_trans h0 (le_max_left _ _), le_trans hup h1⟩

/-- C9 witness: the bounds theorem applied to the balanced configuration
(`[0.05, 0.95]`) and a concrete profile, discharging the three
hypotheses. -/
theorem c9_witness :
    (1:ℚ)/20 ≤ heuristicScore balancedConfig
        { age := 17, parity := 5, lateInitiator := true, education := Education.noFormal,
          hasInsurance := false, everGivenBirth := false, maritalStatus := Marital.notInUnion }
    ∧ heuristicScore balancedConfig
        { age := 17, parity := 5, lateInitiator := true, education := Education.noFormal,
          hasInsurance := false, everGivenBirth := false, maritalStatus := Marital.notInUnion }
        ≤ 19/20
    ∧ 0 ≤ heuristicScore balancedConfig
        { age := 17, parity := 5, lateInitiator := true, education := Education.noFormal,
          hasInsurance := false, everGivenBirth := false, maritalStatus := Marital.notInUnion }
    ∧ heuristicScore balancedConfig
        { age := 17, parity := 5, lateInitiator := true, education := Education.noFormal,
          hasInsurance := false, everGivenBirth := false, maritalStatus := Marital.notInUnion }
        ≤ 1 :=
  c9_score_bounds balancedConfig _
    (by norm_num [balancedConfig]) (by norm_num [balancedConfig]) (by norm_num [balancedConfig])

/-- C10: the displayed factor list depends only on the late-initiator
flag, the encoded education level, the insurance flag, the parity count
and the encoded marital status — two profiles agreeing on those five
values (in particular, differing only in age and/or the ever-given-birth
flag) get exactly the same factor list. -/
theorem c10_factors_ignore_age_and_birth (p q : Profile)
    (hl : p.lateInitiator = q.lateInitiator)
    (he : education_mapping p.education = education_mapping q.education)
    (hi : p.hasInsurance = q.hasInsurance)
    (hp : p.parity = q.parity)
    (hm : marital_mapping p.maritalStatus = marital_mapping q.maritalStatus) :
    riskFactors p = riskFactors q := by
  unfold riskFactors
  rw [hl, he, hi, hp, hm]

/-- C10 witness: two profiles differing only in age (17 vs 45) and the
ever-given-birth flag get the identical factor list. -/
theorem c10_witness :
    riskFactors
        { age := 17, parity := 5, lateInitiator := true, education := Education.noFormal,
          hasInsurance := false, everGivenBirth := false, maritalStatus := Marital.notInUnion }
      = riskFactors
        { age := 45, parity := 5, lateInitiator := true, education := Education.noFormal,
          hasInsurance := false, everGivenBirth := true, maritalStatus := Marital.notInUnion } :=
  c10_factors_ignore_age_and_birth _ _ rfl rfl rfl rfl rfl
